import Mathlib

/-!
Shallow embedding of the attention tracker from
`src/src/attention_tracker.py` (class `AttentionTracker`).

Python floats are modelled as rationals, the two attention-state strings
"looking" / "not_looking" as the inductive type `AttState`, the
`collections.deque(maxlen=smoothing_window)` buffer as a list capped by
`pushMax`, and the internal `time.time()` reads as an explicit `now`
argument threaded through `update` / `reset` and a seed timestamp given to
the constructor (the spec's design note describes exactly this reading of
the wall-clock coupling).
-/

/-- The two attention states, the strings "looking" and "not_looking" of the
Python source. -/
inductive AttState where
  | looking
  | not_looking
deriving DecidableEq, Repr

/-- Full mutable state of a Python `AttentionTracker` instance: the five
configuration attributes and the ten mutable attributes set in `__init__`. -/
structure AttentionTracker where
  alert_threshold : ℚ
  yaw_threshold : ℚ
  pitch_threshold : ℚ
  smoothing_window : ℕ
  min_consecutive_frames : ℕ
  current_state : AttState
  previous_state : AttState
  state_buffer : List AttState
  consecutive_count : ℕ
  time_not_looking : ℚ
  last_update_time : ℚ
  alert_active : Bool
  total_frames : ℕ
  frames_looking : ℕ
  frames_not_looking : ℕ
deriving DecidableEq, Repr

/-- The dict returned by `AttentionTracker.update`. -/
structure FrameResult where
  state : AttState
  time_not_looking : ℚ
  alert_active : Bool
  confidence : ℚ
  raw_state : AttState
deriving DecidableEq, Repr

/-- The dict returned by `AttentionTracker.get_statistics`. -/
structure Stats where
  total_frames : ℕ
  frames_looking : ℕ
  frames_not_looking : ℕ
  attention_ratio : ℚ
  current_state : AttState
  time_not_looking : ℚ
  alert_active : Bool
deriving DecidableEq, Repr

namespace AttentionTracker

/-- `AttentionTracker.__init__`: the construction-time state. `now` models
the `time.time()` read that seeds `last_update_time`. The Python
constructor performs no validation of the configuration values. -/
def init (alert_threshold yaw_threshold pitch_threshold : ℚ)
    (smoothing_window min_consecutive_frames : ℕ) (now : ℚ) :
    AttentionTracker where
  alert_threshold := alert_threshold
  yaw_threshold := yaw_threshold
  pitch_threshold := pitch_threshold
  smoothing_window := smoothing_window
  min_consecutive_frames := min_consecutive_frames
  current_state := .looking
  previous_state := .looking
  state_buffer := []
  consecutive_count := 0
  time_not_looking := 0
  last_update_time := now
  alert_active := false
  total_frames := 0
  frames_looking := 0
  frames_not_looking := 0

/-- `AttentionTracker.classify_attention(yaw, pitch)`: `None` for yaw or
pitch always classifies as not-looking; otherwise looking iff both absolute
angles are strictly below their thresholds. -/
def classify_attention (t : AttentionTracker) (yaw pitch : Option ℚ) :
    AttState :=
  match yaw, pitch with
  | some y, some p =>
      if |y| < t.yaw_threshold ∧ |p| < t.pitch_threshold then .looking
      else .not_looking
  | _, _ => .not_looking

/-- `deque(maxlen=w).append`: push on the right, evicting from the left
whenever the length would exceed the capacity `w`. -/
def pushMax (w : ℕ) (l : List AttState) (x : AttState) : List AttState :=
  let l' := l ++ [x]
  if w < l'.length then l'.drop (l'.length - w) else l'

/-- The "Smooth over buffer (majority vote)" block of `update`, applied to
the post-append buffer: at capacity, confidence is the looking-count over
the buffer length and the smoothed value is looking iff confidence exceeds
one half; below capacity the raw value passes through with a binary
confidence. Returns (smoothed_state, confidence). -/
def smoothBlock (w : ℕ) (buf : List AttState) (raw : AttState) :
    AttState × ℚ :=
  if w ≤ buf.length then
    let looking_count := buf.countP (fun s => decide (s = AttState.looking))
    let confidence : ℚ := (looking_count : ℚ) / (buf.length : ℚ)
    (if (1 : ℚ)/2 < confidence then .looking else .not_looking, confidence)
  else
    (raw, if raw = AttState.looking then 1 else 0)

/-- The "Check for state transition" block of `update`: the debounce
(hysteresis) filter exactly as in the source. -/
def transitionBlock (t : AttentionTracker) (smoothed : AttState) :
    AttentionTracker :=
  if smoothed ≠ t.current_state then
    let cc := if smoothed = t.previous_state then t.consecutive_count + 1
              else 1
    let prev := if smoothed = t.previous_state then t.previous_state
                else smoothed
    if t.min_consecutive_frames ≤ cc then
      let t' := { t with current_state := smoothed, previous_state := prev,
                         consecutive_count := 0 }
      if smoothed = AttState.looking then
        { t' with time_not_looking := 0, alert_active := false }
      else t'
    else { t with consecutive_count := cc, previous_state := prev }
  else { t with consecutive_count := 0, previous_state := smoothed }

/-- The "Accumulate time" block of `update`: while the (possibly just
updated) current state is not-looking, add the raw delta to the timer and
latch the alert once the timer reaches the threshold. -/
def accumulateBlock (t : AttentionTracker) (delta : ℚ) : AttentionTracker :=
  if t.current_state = AttState.not_looking then
    let tn := t.time_not_looking + delta
    { t with time_not_looking := tn,
             alert_active := if t.alert_threshold ≤ tn then true
                             else t.alert_active }
  else t

/-- The "Update statistics" block of `update`: one frame counted in total
and in exactly one of the two per-state counters, by post-update state. -/
def statsBlock (t : AttentionTracker) : AttentionTracker :=
  { t with total_frames := t.total_frames + 1,
           frames_looking := if t.current_state = AttState.looking then
               t.frames_looking + 1 else t.frames_looking,
           frames_not_looking := if t.current_state = AttState.looking then
               t.frames_not_looking else t.frames_not_looking + 1 }

/-- `AttentionTracker.update(yaw, pitch)`, with the internal `time.time()`
read made explicit as `now`. Returns the new state and the result dict. -/
def update (t : AttentionTracker) (yaw pitch : Option ℚ) (now : ℚ) :
    AttentionTracker × FrameResult :=
  let delta_time := now - t.last_update_time
  let t0 := { t with last_update_time := now }
  let raw_state := classify_attention t0 yaw pitch
  let t1 := { t0 with
    state_buffer := pushMax t0.smoothing_window t0.state_buffer raw_state }
  let sc := smoothBlock t1.smoothing_window t1.state_buffer raw_state
  let t2 := transitionBlock t1 sc.1
  let t3 := accumulateBlock t2 delta_time
  let t4 := statsBlock t3
  (t4, { state := t4.current_state,
         time_not_looking := t4.time_not_looking,
         alert_active := t4.alert_active,
         confidence := sc.2,
         raw_state := raw_state })

/-- `AttentionTracker.reset()`, with the internal `time.time()` read made
explicit as `now`. The source clears the seven temporal fields and leaves
the configuration and the three statistics counters untouched. -/
def reset (t : AttentionTracker) (now : ℚ) : AttentionTracker :=
  { t with current_state := .looking, previous_state := .looking,
           state_buffer := [], consecutive_count := 0,
           time_not_looking := 0, last_update_time := now,
           alert_active := false }

/-- `AttentionTracker.get_statistics()`. -/
def get_statistics (t : AttentionTracker) : Stats where
  total_frames := t.total_frames
  frames_looking := t.frames_looking
  frames_not_looking := t.frames_not_looking
  attention_ratio := if t.total_frames = 0 then 1
    else (t.frames_looking : ℚ) / (t.total_frames : ℚ)
  current_state := t.current_state
  time_not_looking := t.time_not_looking
  alert_active := t.alert_active

/-- Tracker states reachable from some construction by `update` and
`reset` calls. -/
inductive Reachable : AttentionTracker → Prop where
  | init (a y p : ℚ) (w m : ℕ) (now : ℚ) : Reachable (init a y p w m now)
  | update (t : AttentionTracker) (yaw pitch : Option ℚ) (now : ℚ) :
      Reachable t → Reachable (update t yaw pitch now).1
  | reset (t : AttentionTracker) (now : ℚ) :
      Reachable t → Reachable (reset t now)

/-- Fold a list of (yaw, pitch, now) samples through `update`. -/
def runUpdates (t : AttentionTracker) :
    List (Option ℚ × Option ℚ × ℚ) → AttentionTracker
  | [] => t
  | s :: rest => runUpdates (update t s.1 s.2.1 s.2.2).1 rest

end AttentionTracker

namespace AttentionTracker

/-- The smoothed classification produced by an `update` call on tracker `t`
with the given pose sample: the first component of the smoothing block
applied to the post-append buffer. -/
def smoothedOf (t : AttentionTracker) (yaw pitch : Option ℚ) : AttState :=
  let raw := classify_attention t yaw pitch
  (smoothBlock t.smoothing_window (pushMax t.smoothing_window t.state_buffer raw) raw).1

lemma update_fst (t : AttentionTracker) (yaw pitch : Option ℚ) (now : ℚ) :
    (update t yaw pitch now).1 =
      statsBlock (accumulateBlock
        (transitionBlock
          { t with last_update_time := now,
                   state_buffer := pushMax t.smoothing_window t.state_buffer
                     (classify_attention t yaw pitch) }
          (smoothedOf t yaw pitch))
        (now - t.last_update_time)) := rfl

lemma update_snd (t : AttentionTracker) (yaw pitch : Option ℚ) (now : ℚ) :
    (update t yaw pitch now).2 =
      { state := (update t yaw pitch now).1.current_state,
        time_not_looking := (update t yaw pitch now).1.time_not_looking,
        alert_active := (update t yaw pitch now).1.alert_active,
        confidence := (smoothBlock t.smoothing_window
          (pushMax t.smoothing_window t.state_buffer
            (classify_attention t yaw pitch))
          (classify_attention t yaw pitch)).2,
        raw_state := classify_attention t yaw pitch } := rfl

section BlockLemmas

variable (t : AttentionTracker) (s : AttState) (d : ℚ)

lemma transitionBlock_previous : (transitionBlock t s).previous_state = s := by
  simp only [transitionBlock]
  split_ifs <;> simp_all

lemma transitionBlock_current :
    (transitionBlock t s).current_state = t.current_state ∨
      (transitionBlock t s).current_state = s := by
  simp only [transitionBlock]
  split_ifs <;> simp

lemma transitionBlock_change (h : (transitionBlock t s).current_state ≠ t.current_state) :
    s ≠ t.current_state ∧ (transitionBlock t s).current_state = s ∧
      t.min_consecutive_frames ≤
        (if s = t.previous_state then t.consecutive_count + 1 else 1) := by
  simp only [transitionBlock] at h ⊢
  split_ifs at h ⊢ <;> simp_all

lemma transitionBlock_keep_nl (h : (transitionBlock t s).current_state = AttState.not_looking) :
    (transitionBlock t s).alert_active = t.alert_active ∧
      (transitionBlock t s).time_not_looking = t.time_not_looking := by
  simp only [transitionBlock] at h ⊢
  split_ifs at h ⊢ <;> simp_all

lemma transitionBlock_nochange
    (h : (transitionBlock t s).current_state = t.current_state) :
    (transitionBlock t s).alert_active = t.alert_active ∧
      (transitionBlock t s).time_not_looking = t.time_not_looking := by
  simp only [transitionBlock] at h ⊢
  split_ifs at h ⊢ <;> simp_all

lemma transitionBlock_to_looking (hc : t.current_state = AttState.not_looking)
    (h : (transitionBlock t s).current_state = AttState.looking) :
    (transitionBlock t s).alert_active = false ∧
      (transitionBlock t s).time_not_looking = 0 := by
  simp only [transitionBlock] at h ⊢
  split_ifs at h ⊢ <;> simp_all

lemma transitionBlock_time :
    (transitionBlock t s).time_not_looking = t.time_not_looking ∨
      (transitionBlock t s).time_not_looking = 0 := by
  simp only [transitionBlock]
  split_ifs <;> simp

lemma transitionBlock_consec_lt (hm : 1 ≤ t.min_consecutive_frames) :
    (transitionBlock t s).consecutive_count < t.min_consecutive_frames := by
  simp only [transitionBlock]
  split_ifs <;> simp_all <;> omega

lemma transitionBlock_config :
    (transitionBlock t s).alert_threshold = t.alert_threshold ∧
      (transitionBlock t s).yaw_threshold = t.yaw_threshold ∧
      (transitionBlock t s).pitch_threshold = t.pitch_threshold ∧
      (transitionBlock t s).smoothing_window = t.smoothing_window ∧
      (transitionBlock t s).min_consecutive_frames = t.min_consecutive_frames ∧
      (transitionBlock t s).state_buffer = t.state_buffer ∧
      (transitionBlock t s).last_update_time = t.last_update_time ∧
      (transitionBlock t s).total_frames = t.total_frames ∧
      (transitionBlock t s).frames_looking = t.frames_looking ∧
      (transitionBlock t s).frames_not_looking = t.frames_not_looking := by
  simp only [transitionBlock]
  split_ifs <;> simp

lemma accumulateBlock_fields :
    (accumulateBlock t d).current_state = t.current_state ∧
      (accumulateBlock t d).previous_state = t.previous_state ∧
      (accumulateBlock t d).consecutive_count = t.consecutive_count ∧
      (accumulateBlock t d).state_buffer = t.state_buffer ∧
      (accumulateBlock t d).last_update_time = t.last_update_time ∧
      (accumulateBlock t d).total_frames = t.total_frames ∧
      (accumulateBlock t d).frames_looking = t.frames_looking ∧
      (accumulateBlock t d).frames_not_looking = t.frames_not_looking ∧
      (accumulateBlock t d).min_consecutive_frames = t.min_consecutive_frames ∧
      (accumulateBlock t d).smoothing_window = t.smoothing_window ∧
      (accumulateBlock t d).alert_threshold = t.alert_threshold := by
  simp only [accumulateBlock]
  split_ifs <;> simp

lemma accumulateBlock_time :
    (accumulateBlock t d).time_not_looking =
      if t.current_state = AttState.not_looking then t.time_not_looking + d
      else t.time_not_looking := by
  simp only [accumulateBlock]
  split_ifs <;> simp

lemma accumulateBlock_alert :
    (accumulateBlock t d).alert_active =
      if t.current_state = AttState.not_looking then
        (if t.alert_threshold ≤ t.time_not_looking + d then true
         else t.alert_active)
      else t.alert_active := by
  simp only [accumulateBlock]
  split_ifs <;> simp

lemma statsBlock_fields :
    (statsBlock t).current_state = t.current_state ∧
      (statsBlock t).previous_state = t.previous_state ∧
      (statsBlock t).consecutive_count = t.consecutive_count ∧
      (statsBlock t).state_buffer = t.state_buffer ∧
      (statsBlock t).last_update_time = t.last_update_time ∧
      (statsBlock t).time_not_looking = t.time_not_looking ∧
      (statsBlock t).alert_active = t.alert_active ∧
      (statsBlock t).min_consecutive_frames = t.min_consecutive_frames ∧
      (statsBlock t).smoothing_window = t.smoothing_window ∧
      (statsBlock t).alert_threshold = t.alert_threshold := by
  exact ⟨rfl, rfl, rfl, rfl, rfl, rfl, rfl, rfl, rfl, rfl⟩

lemma statsBlock_counts :
    (statsBlock t).total_frames = t.total_frames + 1 ∧
      (statsBlock t).frames_looking =
        (if t.current_state = AttState.looking then t.frames_looking + 1
         else t.frames_looking) ∧
      (statsBlock t).frames_not_looking =
        (if t.current_state = AttState.looking then t.frames_not_looking
         else t.frames_not_looking + 1) := by
  exact ⟨rfl, rfl, rfl⟩

end BlockLemmas

end AttentionTracker

namespace AttentionTracker

section Projections

variable (t : AttentionTracker) (s : AttState) (d : ℚ)

@[simp] lemma transitionBlock_alert_threshold :
    (transitionBlock t s).alert_threshold = t.alert_threshold :=
  (transitionBlock_config t s).1

@[simp] lemma transitionBlock_yaw_threshold :
    (transitionBlock t s).yaw_threshold = t.yaw_threshold :=
  (transitionBlock_config t s).2.1

@[simp] lemma transitionBlock_pitch_threshold :
    (transitionBlock t s).pitch_threshold = t.pitch_threshold :=
  (transitionBlock_config t s).2.2.1

@[simp] lemma transitionBlock_smoothing_window :
    (transitionBlock t s).smoothing_window = t.smoothing_window :=
  (transitionBlock_config t s).2.2.2.1

@[simp] lemma transitionBlock_min_consecutive :
    (transitionBlock t s).min_consecutive_frames = t.min_consecutive_frames :=
  (transitionBlock_config t s).2.2.2.2.1

@[simp] lemma transitionBlock_state_buffer :
    (transitionBlock t s).state_buffer = t.state_buffer :=
  (transitionBlock_config t s).2.2.2.2.2.1

@[simp] lemma transitionBlock_last_update_time :
    (transitionBlock t s).last_update_time = t.last_update_time :=
  (transitionBlock_config t s).2.2.2.2.2.2.1

@[simp] lemma transitionBlock_total_frames :
    (transitionBlock t s).total_frames = t.total_frames :=
  (transitionBlock_config t s).2.2.2.2.2.2.2.1

@[simp] lemma transitionBlock_frames_looking :
    (transitionBlock t s).frames_looking = t.frames_looking :=
  (transitionBlock_config t s).2.2.2.2.2.2.2.2.1

@[simp] lemma transitionBlock_frames_not_looking :
    (transitionBlock t s).frames_not_looking = t.frames_not_looking :=
  (transitionBlock_config t s).2.2.2.2.2.2.2.2.2

@[simp] lemma accumulateBlock_current_state :
    (accumulateBlock t d).current_state = t.current_state :=
  (accumulateBlock_fields t d).1

@[simp] lemma accumulateBlock_previous_state :
    (accumulateBlock t d).previous_state = t.previous_state :=
  (accumulateBlock_fields t d).2.1

@[simp] lemma accumulateBlock_consecutive_count :
    (accumulateBlock t d).consecutive_count = t.consecutive_count :=
  (accumulateBlock_fields t d).2.2.1

@[simp] lemma accumulateBlock_state_buffer :
    (accumulateBlock t d).state_buffer = t.state_buffer :=
  (accumulateBlock_fields t d).2.2.2.1

@[simp] lemma accumulateBlock_last_update_time :
    (accumulateBlock t d).last_update_time = t.last_update_time :=
  (accumulateBlock_fields t d).2.2.2.2.1

@[simp] lemma accumulateBlock_total_frames :
    (accumulateBlock t d).total_frames = t.total_frames :=
  (accumulateBlock_fields t d).2.2.2.2.2.1

@[simp] lemma accumulateBlock_frames_looking :
    (accumulateBlock t d).frames_looking = t.frames_looking :=
  (accumulateBlock_fields t d).2.2.2.2.2.2.1

@[simp] lemma accumulateBlock_frames_not_looking :
    (accumulateBlock t d).frames_not_looking = t.frames_not_looking :=
  (accumulateBlock_fields t d).2.2.2.2.2.2.2.1

@[simp] lemma accumulateBlock_min_consecutive :
    (accumulateBlock t d).min_consecutive_frames = t.min_consecutive_frames :=
  (accumulateBlock_fields t d).2.2.2.2.2.2.2.2.1

@[simp] lemma accumulateBlock_smoothing_window :
    (accumulateBlock t d).smoothing_window = t.smoothing_window :=
  (accumulateBlock_fields t d).2.2.2.2.2.2.2.2.2.1

@[simp] lemma accumulateBlock_alert_threshold :
    (accumulateBlock t d).alert_threshold = t.alert_threshold :=
  (accumulateBlock_fields t d).2.2.2.2.2.2.2.2.2.2

@[simp] lemma statsBlock_current_state :
    (statsBlock t).current_state = t.current_state := rfl

@[simp] lemma statsBlock_previous_state :
    (statsBlock t).previous_state = t.previous_state := rfl

@[simp] lemma statsBlock_consecutive_count :
    (statsBlock t).consecutive_count = t.consecutive_count := rfl

@[simp] lemma statsBlock_state_buffer :
    (statsBlock t).state_buffer = t.state_buffer := rfl

@[simp] lemma statsBlock_last_update_time :
    (statsBlock t).last_update_time = t.last_update_time := rfl

@[simp] lemma statsBlock_time_not_looking :
    (statsBlock t).time_not_looking = t.time_not_looking := rfl

@[simp] lemma statsBlock_alert_active :
    (statsBlock t).alert_active = t.alert_active := rfl

@[simp] lemma statsBlock_min_consecutive :
    (statsBlock t).min_consecutive_frames = t.min_consecutive_frames := rfl

@[simp] lemma statsBlock_smoothing_window :
    (statsBlock t).smoothing_window = t.smoothing_window := rfl

@[simp] lemma statsBlock_alert_threshold :
    (statsBlock t).alert_threshold = t.alert_threshold := rfl

@[simp] lemma statsBlock_total_frames :
    (statsBlock t).total_frames = t.total_frames + 1 := rfl

lemma statsBlock_frames_looking :
    (statsBlock t).frames_looking =
      (if t.current_state = AttState.looking then t.frames_looking + 1
       else t.frames_looking) := rfl

lemma statsBlock_frames_not_looking :
    (statsBlock t).frames_not_looking =
      (if t.current_state = AttState.looking then t.frames_not_looking
       else t.frames_not_looking + 1) := rfl

end Projections

lemma update_min_consecutive (t : AttentionTracker) (yaw pitch : Option ℚ)
    (now : ℚ) :
    (update t yaw pitch now).1.min_consecutive_frames =
      t.min_consecutive_frames := by
  rw [update_fst]; simp

lemma update_consecutive_lt (t : AttentionTracker) (yaw pitch : Option ℚ)
    (now : ℚ) (hm : 1 ≤ t.min_consecutive_frames) :
    (update t yaw pitch now).1.consecutive_count < t.min_consecutive_frames := by
  rw [update_fst]
  simp only [statsBlock_consecutive_count, accumulateBlock_consecutive_count]
  exact transitionBlock_consec_lt _ _ hm

lemma update_stats_inv (t : AttentionTracker) (yaw pitch : Option ℚ)
    (now : ℚ) (h : t.total_frames = t.frames_looking + t.frames_not_looking) :
    (update t yaw pitch now).1.total_frames =
      (update t yaw pitch now).1.frames_looking +
        (update t yaw pitch now).1.frames_not_looking := by
  rw [update_fst]
  simp only [statsBlock_total_frames, statsBlock_frames_looking,
    statsBlock_frames_not_looking, accumulateBlock_total_frames,
    accumulateBlock_frames_looking, accumulateBlock_frames_not_looking,
    transitionBlock_total_frames, transitionBlock_frames_looking,
    transitionBlock_frames_not_looking]
  split_ifs <;> omega

lemma reachable_stats_inv (t : AttentionTracker) (h : Reachable t) :
    t.total_frames = t.frames_looking + t.frames_not_looking := by
  induction h with
  | init a y p w m now => rfl
  | update t yaw pitch now _ ih => exact update_stats_inv t yaw pitch now ih
  | reset t now _ ih => exact ih

lemma reachable_consec_lt (t : AttentionTracker) (h : Reachable t)
    (hm : 1 ≤ t.min_consecutive_frames) :
    t.consecutive_count < t.min_consecutive_frames := by
  induction h with
  | init a y p w m now => exact hm
  | update t yaw pitch now _ ih =>
      rw [update_min_consecutive] at hm ⊢
      exact update_consecutive_lt t yaw pitch now hm
  | reset t now _ ih => exact hm

end AttentionTracker

namespace AttentionTracker

lemma pushMax_length (w : ℕ) (l : List AttState) (x : AttState) :
    (pushMax w l x).length = min (l.length + 1) w := by
  simp only [pushMax]
  split_ifs with h <;>
    simp only [List.length_drop, List.length_append, List.length_singleton] at h ⊢ <;>
    omega

@[simp] lemma update_result_state (t : AttentionTracker)
    (yaw pitch : Option ℚ) (now : ℚ) :
    (update t yaw pitch now).2.state = (update t yaw pitch now).1.current_state :=
  rfl

@[simp] lemma update_result_alert (t : AttentionTracker)
    (yaw pitch : Option ℚ) (now : ℚ) :
    (update t yaw pitch now).2.alert_active =
      (update t yaw pitch now).1.alert_active :=
  rfl

@[simp] lemma update_result_time (t : AttentionTracker)
    (yaw pitch : Option ℚ) (now : ℚ) :
    (update t yaw pitch now).2.time_not_looking =
      (update t yaw pitch now).1.time_not_looking :=
  rfl

@[simp] lemma update_result_raw (t : AttentionTracker)
    (yaw pitch : Option ℚ) (now : ℚ) :
    (update t yaw pitch now).2.raw_state = classify_attention t yaw pitch :=
  rfl

@[simp] lemma update_result_confidence (t : AttentionTracker)
    (yaw pitch : Option ℚ) (now : ℚ) :
    (update t yaw pitch now).2.confidence =
      (smoothBlock t.smoothing_window
        (pushMax t.smoothing_window t.state_buffer
          (classify_attention t yaw pitch))
        (classify_attention t yaw pitch)).2 :=
  rfl

end AttentionTracker

namespace AttentionTracker

/-- Claim C7: `classify_attention` is a pure, deterministic function of the
configured thresholds and the pose sample (it is a plain function in this
embedding, with no state change). An absent yaw or pitch always classifies
as not-looking; a present sample classifies as looking iff the absolute yaw
and pitch are both strictly below their thresholds; a sample exactly at a
threshold, such as yaw = 25 under the default configuration, classifies as
not-looking. -/
theorem claim_C7_classify (t : AttentionTracker) (y p : ℚ)
    (oy op : Option ℚ) :
    classify_attention t none op = AttState.not_looking ∧
    classify_attention t oy none = AttState.not_looking ∧
    (classify_attention t (some y) (some p) = AttState.looking ↔
      |y| < t.yaw_threshold ∧ |p| < t.pitch_threshold) ∧
    classify_attention (init 5 25 20 5 3 0) (some 25) (some 0) =
      AttState.not_looking := by
  refine ⟨by cases op <;> rfl, by cases oy <;> rfl, ?_, by decide⟩
  simp only [classify_attention]
  split_ifs with h <;> simp [h]

/-- The configuration-error value the spec's error taxonomy names; the
source repository contains no such class. -/
inductive ConfigError where
  | configurationError
deriving DecidableEq, Repr

/-- Spec-side constructor for the refinement comparison of claim C2,
following the spec words of section 4.1: a non-positive alert threshold or
a window size or consecutive-frame count below 1 fails construction with a
ConfigurationError; any other configuration constructs the tracker. The
source constructor `init` performs no validation at all. -/
def initSpec (a y p : ℚ) (w m : ℕ) (now : ℚ) :
    Except ConfigError AttentionTracker :=
  if a ≤ 0 ∨ w < 1 ∨ m < 1 then Except.error ConfigError.configurationError
  else Except.ok (init a y p w m now)

/-- Claim C2 counterexample: at the invalid configuration with alert
threshold -1 the spec-side constructor fails with a configuration error,
but the source constructor has no validation and returns a fully formed
tracker that carries the invalid threshold — construction does not fail. -/
theorem claim_C2_counterexample :
    initSpec (-1) 25 20 5 3 0 =
      Except.error ConfigError.configurationError ∧
    init (-1) 25 20 5 3 0 =
      { alert_threshold := -1, yaw_threshold := 25, pitch_threshold := 20,
        smoothing_window := 5, min_consecutive_frames := 3,
        current_state := AttState.looking,
        previous_state := AttState.looking, state_buffer := [],
        consecutive_count := 0, time_not_looking := 0,
        last_update_time := 0, alert_active := false, total_frames := 0,
        frames_looking := 0, frames_not_looking := 0 } :=
  ⟨by with_unfolding_all rfl, by with_unfolding_all decide⟩

/-- Claim C2 (amended): construction never fails — for every configuration,
valid or invalid, the source constructor produces a tracker holding exactly
the given configuration values and the construction-time mutable state; no
ConfigurationError exists anywhere in the source. -/
theorem claim_C2_construction_total (a y p : ℚ) (w m : ℕ) (now : ℚ) :
    (init a y p w m now).alert_threshold = a ∧
    (init a y p w m now).yaw_threshold = y ∧
    (init a y p w m now).pitch_threshold = p ∧
    (init a y p w m now).smoothing_window = w ∧
    (init a y p w m now).min_consecutive_frames = m ∧
    (init a y p w m now).current_state = AttState.looking ∧
    (init a y p w m now).previous_state = AttState.looking ∧
    (init a y p w m now).state_buffer = [] ∧
    (init a y p w m now).consecutive_count = 0 ∧
    (init a y p w m now).time_not_looking = 0 ∧
    (init a y p w m now).last_update_time = now ∧
    (init a y p w m now).alert_active = false ∧
    (init a y p w m now).total_frames = 0 ∧
    (init a y p w m now).frames_looking = 0 ∧
    (init a y p w m now).frames_not_looking = 0 :=
  ⟨rfl, rfl, rfl, rfl, rfl, rfl, rfl, rfl, rfl, rfl, rfl, rfl, rfl, rfl,
    rfl⟩

/-- Claim C1 (code bug): `reset` does not restore the cumulative statistics
counters. After five default-configuration updates looking away (two frames
counted looking during the debounce, three counted not-looking) and a
`reset`, `get_statistics` still reports the five frames and the 2/5
attention ratio of the pre-reset run, although the claim — like the spec's
reset-idempotence property and `reset`'s own docstring, "Reset all tracking
state" — requires the construction-time snapshot with all counters zero
and ratio 1. The remaining fields (state, timer, alert) do reset. -/
theorem claim_C1_reset_keeps_counters :
    (get_statistics (reset (runUpdates (init 5 25 20 5 3 0)
        [(some 30, some 0, 1), (some 30, some 0, 2), (some 30, some 0, 3),
         (some 30, some 0, 4), (some 30, some 0, 5)]) 6)) =
      { total_frames := 5, frames_looking := 2, frames_not_looking := 3,
        attention_ratio := 2/5, current_state := AttState.looking,
        time_not_looking := 0, alert_active := false } := by
  with_unfolding_all decide

/-- Claim C10: in every reachable tracker state whose configured
minimum-consecutive-frames count is at least one (the domain the spec
admits for this option), the debounce counter stays strictly below the
confirmation threshold — a call that reaches the threshold confirms the
transition and clears the counter within that same call, and a call whose
smoothed value matches the current state clears it as well; construction
and `reset` leave it at zero. -/
theorem claim_C10_consecutive_invariant (t : AttentionTracker)
    (h : Reachable t) (hm : 1 ≤ t.min_consecutive_frames) :
    t.consecutive_count < t.min_consecutive_frames :=
  reachable_consec_lt t h hm

/-- Witness for claim C10 at a default tracker after one look-away frame. -/
theorem claim_C10_witness :
    ((init 5 25 20 5 3 0).update (some 30) (some 0) 1).1.consecutive_count <
      ((init 5 25 20 5 3 0).update (some 30) (some 0) 1).1.min_consecutive_frames :=
  claim_C10_consecutive_invariant _
    (Reachable.update _ (some 30) (some 0) 1 (Reachable.init 5 25 20 5 3 0))
    (by decide)

/-- Claim C8: statistics invariant. In every reachable state the total
frame counter is the sum of the two per-state counters; each update call
increments the total by exactly one and exactly one of the two per-state
counters, chosen by the post-update tracker state; and the attention ratio
reported by `get_statistics` is frames-looking over total frames, defined
as 1 when no frame has been counted. -/
theorem claim_C8_statistics_invariant :
    (∀ t : AttentionTracker, Reachable t →
      t.total_frames = t.frames_looking + t.frames_not_looking) ∧
    (∀ (t : AttentionTracker) (yaw pitch : Option ℚ) (now : ℚ),
      (update t yaw pitch now).1.total_frames = t.total_frames + 1 ∧
      ((update t yaw pitch now).1.current_state = AttState.looking →
        (update t yaw pitch now).1.frames_looking = t.frames_looking + 1 ∧
        (update t yaw pitch now).1.frames_not_looking =
          t.frames_not_looking) ∧
      ((update t yaw pitch now).1.current_state = AttState.not_looking →
        (update t yaw pitch now).1.frames_not_looking =
          t.frames_not_looking + 1 ∧
        (update t yaw pitch now).1.frames_looking = t.frames_looking)) ∧
    (∀ t : AttentionTracker, (get_statistics t).attention_ratio =
      if t.total_frames = 0 then 1
      else (t.frames_looking : ℚ) / (t.total_frames : ℚ)) := by
  refine ⟨reachable_stats_inv, ?_, fun t => rfl⟩
  intro t yaw pitch now
  refine ⟨by rw [update_fst]; simp, ?_, ?_⟩
  · intro h
    rw [update_fst] at h ⊢
    simp only [statsBlock_current_state, accumulateBlock_current_state] at h
    simp [statsBlock_frames_looking, statsBlock_frames_not_looking, h]
  · intro h
    rw [update_fst] at h ⊢
    simp only [statsBlock_current_state, accumulateBlock_current_state] at h
    simp [statsBlock_frames_looking, statsBlock_frames_not_looking, h]

/-- Witness for claim C8 after one update on a default tracker. -/
theorem claim_C8_witness :
    ((init 5 25 20 5 3 0).update (some 30) (some 0) 1).1.total_frames =
      ((init 5 25 20 5 3 0).update (some 30) (some 0) 1).1.frames_looking +
        ((init 5 25 20 5 3 0).update (some 30) (some 0) 1).1.frames_not_looking :=
  claim_C8_statistics_invariant.1 _
    (Reachable.update _ (some 30) (some 0) 1 (Reachable.init 5 25 20 5 3 0))

end AttentionTracker

namespace AttentionTracker

/-- A tracker literal mid-run: default configuration, state not-looking
with a full not-looking buffer, timer past the threshold, alert latched.
Used to instantiate alert and timer properties at a concrete state. -/
def alertedTracker : AttentionTracker :=
  let t0 := init 5 25 20 5 3 10
  { t0 with current_state := AttState.not_looking,
            previous_state := AttState.not_looking,
            state_buffer := List.replicate 5 AttState.not_looking,
            time_not_looking := 6, alert_active := true }

lemma update_alert_mono_aux (B : AttentionTracker) (s : AttState) (d : ℚ)
    (ha : B.alert_active = true)
    (hc : B.current_state = AttState.not_looking) :
    ((accumulateBlock (transitionBlock B s) d).current_state =
        AttState.not_looking →
      (accumulateBlock (transitionBlock B s) d).alert_active = true) ∧
    ((accumulateBlock (transitionBlock B s) d).current_state =
        AttState.looking →
      (accumulateBlock (transitionBlock B s) d).alert_active = false ∧
      (accumulateBlock (transitionBlock B s) d).time_not_looking = 0) := by
  rcases h3 : (transitionBlock B s).current_state with _ | _
  · have hfa := transitionBlock_to_looking B s hc h3
    constructor
    · intro hx
      rw [accumulateBlock_current_state, h3] at hx
      cases hx
    · intro _
      constructor
      · rw [accumulateBlock_alert, h3]
        simp [hfa.1]
      · rw [accumulateBlock_time, h3]
        simp [hfa.2]
  · have hk := transitionBlock_keep_nl B s h3
    constructor
    · intro _
      rw [accumulateBlock_alert, h3, hk.1, ha]
      simp
    · intro hx
      rw [accumulateBlock_current_state, h3] at hx
      cases hx

/-- Claim C4: alert monotonicity. From any state in which the alert is
active and the tracker state is not-looking, a single `update` call either
keeps the state not-looking — and then the returned result still has the
alert active — or transitions it to looking, and then the same call's
result reports the alert cleared and the not-looking timer reset to zero.
(Composing the first arm over consecutive calls gives persistence of the
alert for as long as the state stays not-looking.) -/
theorem claim_C4_alert_monotonic (t : AttentionTracker)
    (yaw pitch : Option ℚ) (now : ℚ)
    (halert : t.alert_active = true)
    (hstate : t.current_state = AttState.not_looking) :
    ((update t yaw pitch now).2.state = AttState.not_looking →
      (update t yaw pitch now).2.alert_active = true) ∧
    ((update t yaw pitch now).2.state = AttState.looking →
      (update t yaw pitch now).2.alert_active = false ∧
      (update t yaw pitch now).2.time_not_looking = 0) :=
  update_alert_mono_aux
    { t with last_update_time := now,
             state_buffer := pushMax t.smoothing_window t.state_buffer
               (classify_attention t yaw pitch) }
    (smoothedOf t yaw pitch) (now - t.last_update_time) halert hstate

/-- Witness for claim C4 at the concrete alerted tracker. -/
theorem claim_C4_witness :
    ((update alertedTracker none none 11).2.state = AttState.not_looking →
      (update alertedTracker none none 11).2.alert_active = true) ∧
    ((update alertedTracker none none 11).2.state = AttState.looking →
      (update alertedTracker none none 11).2.alert_active = false ∧
      (update alertedTracker none none 11).2.time_not_looking = 0) :=
  claim_C4_alert_monotonic alertedTracker none none 11 rfl rfl

end AttentionTracker

namespace AttentionTracker

lemma update_time_mono_aux (B : AttentionTracker) (s : AttState) (d : ℚ)
    (hd : 0 ≤ d) :
    (B.current_state = AttState.not_looking ∧
      (accumulateBlock (transitionBlock B s) d).current_state =
        AttState.looking ∧
      (accumulateBlock (transitionBlock B s) d).time_not_looking = 0) ∨
    B.time_not_looking ≤
      (accumulateBlock (transitionBlock B s) d).time_not_looking := by
  rcases h3 : (transitionBlock B s).current_state with _ | _
  · rcases h4 : B.current_state with _ | _
    · right
      have hnc := transitionBlock_nochange B s (by rw [h3, h4])
      rw [accumulateBlock_time, h3, hnc.2]
      simp
    · left
      have hfa := transitionBlock_to_looking B s h4 h3
      refine ⟨rfl, ?_, ?_⟩
      · rw [accumulateBlock_current_state, h3]
      · rw [accumulateBlock_time, h3, hfa.2]
        simp
  · right
    have hk := transitionBlock_keep_nl B s h3
    rw [accumulateBlock_time, h3, hk.2]
    simp only [reduceIte]
    linarith

/-- Claim C5 counterexample: the source does not clamp a negative time
delta to zero. At a not-looking tracker whose stored timestamp is 10,
an `update` call with `now = 9` (the wall clock read going backwards, as
in the claim's clock-skew scenario) adds the delta -1 as-is: the
not-looking timer drops from 6 to 5 although the state stays not-looking
— `timeNotLooking` decreased on a call with no transition to looking. -/
theorem claim_C5_counterexample :
    alertedTracker.current_state = AttState.not_looking ∧
    alertedTracker.time_not_looking = 6 ∧
    (update alertedTracker none none 9).1.current_state =
      AttState.not_looking ∧
    (update alertedTracker none none 9).1.time_not_looking = 5 := by
  with_unfolding_all decide

/-- Claim C5 (amended): `update` is a total function of its inputs, and on
every call whose supplied `now` is not earlier than the stored timestamp
(non-negative delta; a zero delta accumulates zero) the not-looking timer
does not decrease, except on a call that transitions the tracker state to
looking, which resets it to zero. A call with a negative delta (`now`
before the stored timestamp) adds the delta as-is and can decrease the
timer. -/
theorem claim_C5_time_monotone (t : AttentionTracker)
    (yaw pitch : Option ℚ) (now : ℚ)
    (h : t.last_update_time ≤ now) :
    (t.current_state = AttState.not_looking ∧
      (update t yaw pitch now).1.current_state = AttState.looking ∧
      (update t yaw pitch now).1.time_not_looking = 0) ∨
    t.time_not_looking ≤ (update t yaw pitch now).1.time_not_looking :=
  update_time_mono_aux
    { t with last_update_time := now,
             state_buffer := pushMax t.smoothing_window t.state_buffer
               (classify_attention t yaw pitch) }
    (smoothedOf t yaw pitch) (now - t.last_update_time) (by linarith)

/-- Witness for claim C5 on a fresh default tracker updated one second
after construction. -/
theorem claim_C5_witness :
    ((init 5 25 20 5 3 0).current_state = AttState.not_looking ∧
      ((init 5 25 20 5 3 0).update (some 30) (some 0) 1).1.current_state =
        AttState.looking ∧
      ((init 5 25 20 5 3 0).update (some 30) (some 0) 1).1.time_not_looking
        = 0) ∨
    (init 5 25 20 5 3 0).time_not_looking ≤
      ((init 5 25 20 5 3 0).update (some 30) (some 0) 1).1.time_not_looking :=
  claim_C5_time_monotone (init 5 25 20 5 3 0) (some 30) (some 0) 1
    (by norm_num [init])

end AttentionTracker

namespace AttentionTracker

/-- Claim C6: smoothing semantics of a single `update` call, stated on the
post-append buffer (the buffer the source inspects). The returned
confidence is exactly the smoothing block's confidence. If the window has
reached its capacity, the confidence is the count of looking entries over
the configured window size and the smoothed value is looking iff the
confidence strictly exceeds one half — a tie at exactly one half yields
not-looking. If the window is still below capacity, the smoothed value is
that frame's raw classification and the confidence is 1 for looking and 0
otherwise. Stated for the spec's configuration domain of window size at
least 1 (the source crashes on a zero window at capacity). -/
theorem claim_C6_smoothing (t : AttentionTracker) (yaw pitch : Option ℚ)
    (now : ℚ) (hw : 1 ≤ t.smoothing_window) :
    (update t yaw pitch now).2.confidence =
      (smoothBlock t.smoothing_window
        (pushMax t.smoothing_window t.state_buffer
          (classify_attention t yaw pitch))
        (classify_attention t yaw pitch)).2 ∧
    (t.smoothing_window ≤
        (pushMax t.smoothing_window t.state_buffer
          (classify_attention t yaw pitch)).length →
      (smoothBlock t.smoothing_window
          (pushMax t.smoothing_window t.state_buffer
            (classify_attention t yaw pitch))
          (classify_attention t yaw pitch)).2 =
        ((pushMax t.smoothing_window t.state_buffer
            (classify_attention t yaw pitch)).countP
          (fun s => decide (s = AttState.looking)) : ℚ) /
          (t.smoothing_window : ℚ) ∧
      ((smoothBlock t.smoothing_window
          (pushMax t.smoothing_window t.state_buffer
            (classify_attention t yaw pitch))
          (classify_attention t yaw pitch)).1 = AttState.looking ↔
        (1 : ℚ)/2 <
          (smoothBlock t.smoothing_window
            (pushMax t.smoothing_window t.state_buffer
              (classify_attention t yaw pitch))
            (classify_attention t yaw pitch)).2) ∧
      ((smoothBlock t.smoothing_window
          (pushMax t.smoothing_window t.state_buffer
            (classify_attention t yaw pitch))
          (classify_attention t yaw pitch)).2 = (1 : ℚ)/2 →
        (smoothBlock t.smoothing_window
          (pushMax t.smoothing_window t.state_buffer
            (classify_attention t yaw pitch))
          (classify_attention t yaw pitch)).1 = AttState.not_looking)) ∧
    ((pushMax t.smoothing_window t.state_buffer
        (classify_attention t yaw pitch)).length < t.smoothing_window →
      (smoothBlock t.smoothing_window
          (pushMax t.smoothing_window t.state_buffer
            (classify_attention t yaw pitch))
          (classify_attention t yaw pitch)).1 =
        classify_attention t yaw pitch ∧
      (smoothBlock t.smoothing_window
          (pushMax t.smoothing_window t.state_buffer
            (classify_attention t yaw pitch))
          (classify_attention t yaw pitch)).2 =
        (if classify_attention t yaw pitch = AttState.looking then 1
         else 0)) := by
  refine ⟨rfl, ?_, ?_⟩
  · intro h
    have hlen : (pushMax t.smoothing_window t.state_buffer
        (classify_attention t yaw pitch)).length = t.smoothing_window := by
      rw [pushMax_length] at h ⊢
      omega
    simp only [smoothBlock, if_pos h]
    refine ⟨by rw [hlen], ?_, ?_⟩
    · split_ifs with hc <;> simp_all
    · intro htie
      rw [htie]
      simp
  · intro h
    have hns : ¬ (t.smoothing_window ≤
        (pushMax t.smoothing_window t.state_buffer
          (classify_attention t yaw pitch)).length) := by omega
    simp [smoothBlock, hns]

/-- Witness for claim C6 on a default tracker looking straight ahead one
second after construction (window below capacity: bootstrap branch). -/
theorem claim_C6_witness :
    ((init 5 25 20 5 3 0).update (some 0) (some 0) 1).2.confidence =
      (smoothBlock 5 (pushMax 5 []
          ((init 5 25 20 5 3 0).classify_attention (some 0) (some 0)))
        ((init 5 25 20 5 3 0).classify_attention (some 0) (some 0))).2 ∧
    (5 ≤ (pushMax 5 []
        ((init 5 25 20 5 3 0).classify_attention (some 0) (some 0))).length →
      (smoothBlock 5 (pushMax 5 []
          ((init 5 25 20 5 3 0).classify_attention (some 0) (some 0)))
        ((init 5 25 20 5 3 0).classify_attention (some 0) (some 0))).2 =
        ((pushMax 5 []
            ((init 5 25 20 5 3 0).classify_attention (some 0) (some 0))).countP
          (fun s => decide (s = AttState.looking)) : ℚ) / (5 : ℚ) ∧
      ((smoothBlock 5 (pushMax 5 []
          ((init 5 25 20 5 3 0).classify_attention (some 0) (some 0)))
        ((init 5 25 20 5 3 0).classify_attention (some 0) (some 0))).1 =
          AttState.looking ↔
        (1 : ℚ)/2 < (smoothBlock 5 (pushMax 5 []
            ((init 5 25 20 5 3 0).classify_attention (some 0) (some 0)))
          ((init 5 25 20 5 3 0).classify_attention (some 0) (some 0))).2) ∧
      ((smoothBlock 5 (pushMax 5 []
          ((init 5 25 20 5 3 0).classify_attention (some 0) (some 0)))
        ((init 5 25 20 5 3 0).classify_attention (some 0) (some 0))).2 =
          (1 : ℚ)/2 →
        (smoothBlock 5 (pushMax 5 []
            ((init 5 25 20 5 3 0).classify_attention (some 0) (some 0)))
          ((init 5 25 20 5 3 0).classify_attention (some 0) (some 0))).1 =
          AttState.not_looking)) ∧
    ((pushMax 5 []
        ((init 5 25 20 5 3 0).classify_attention (some 0) (some 0))).length
        < 5 →
      (smoothBlock 5 (pushMax 5 []
          ((init 5 25 20 5 3 0).classify_attention (some 0) (some 0)))
        ((init 5 25 20 5 3 0).classify_attention (some 0) (some 0))).1 =
        (init 5 25 20 5 3 0).classify_attention (some 0) (some 0) ∧
      (smoothBlock 5 (pushMax 5 []
          ((init 5 25 20 5 3 0).classify_attention (some 0) (some 0)))
        ((init 5 25 20 5 3 0).classify_attention (some 0) (some 0))).2 =
        (if (init 5 25 20 5 3 0).classify_attention (some 0) (some 0) =
            AttState.looking then 1 else 0)) :=
  claim_C6_smoothing (init 5 25 20 5 3 0) (some 0) (some 0) 1 (by decide)

end AttentionTracker

namespace AttentionTracker

/-- Claim C3: debounce/hysteresis. First conjunct: on any reachable state
with a valid consecutive-frames configuration, a call can change the
tracker state only when its smoothed value differs from the current state
and is either the same value as on the previous call (recorded in
`previous_state`, third conjunct) with the debounce counter reaching
exactly the configured threshold on this call — the
minConsecutiveFramesToConfirm-th consecutive differing call — or a freshly
differing value with threshold 1. Second conjunct: `previous_state` always
records the call's smoothed value, so "equal to `previous_state`" is
"same smoothed value as the previous call". Fourth conjunct: with the
default threshold 3, two smoothed not-looking frames followed by a return
to smoothed looking leave the state unchanged. Fifth: one isolated flip of
the smoothed signal does not change the state. -/
theorem claim_C3_debounce :
    (∀ (t : AttentionTracker), Reachable t →
      1 ≤ t.min_consecutive_frames →
      ∀ (yaw pitch : Option ℚ) (now : ℚ),
      (update t yaw pitch now).1.current_state ≠ t.current_state →
      smoothedOf t yaw pitch ≠ t.current_state ∧
      ((smoothedOf t yaw pitch = t.previous_state ∧
          t.consecutive_count + 1 = t.min_consecutive_frames) ∨
        (smoothedOf t yaw pitch ≠ t.previous_state ∧
          t.min_consecutive_frames = 1))) ∧
    (∀ (t : AttentionTracker) (yaw pitch : Option ℚ) (now : ℚ),
      (update t yaw pitch now).1.previous_state = smoothedOf t yaw pitch) ∧
    (runUpdates (init 5 25 20 5 3 0)
        [(some 30, some 0, 1), (some 30, some 0, 2),
         (some 0, some 0, 3)]).current_state = AttState.looking ∧
    ((init 5 25 20 5 3 0).update (some 30) (some 0) 1).1.current_state =
      AttState.looking := by
  refine ⟨?_, ?_, by with_unfolding_all decide, by with_unfolding_all decide⟩
  · intro t hr hm yaw pitch now hch
    have hlt := reachable_consec_lt t hr hm
    rw [update_fst] at hch
    simp only [statsBlock_current_state, accumulateBlock_current_state]
      at hch
    obtain ⟨hne, hcs, hle⟩ := transitionBlock_change _ _ hch
    have hle2 : t.min_consecutive_frames ≤
        (if smoothedOf t yaw pitch = t.previous_state then
          t.consecutive_count + 1 else 1) := hle
    refine ⟨hne, ?_⟩
    by_cases hsp : smoothedOf t yaw pitch = t.previous_state
    · left
      rw [if_pos hsp] at hle2
      exact ⟨hsp, by omega⟩
    · right
      rw [if_neg hsp] at hle2
      exact ⟨hsp, by omega⟩
  · intro t yaw pitch now
    rw [update_fst]
    simp only [statsBlock_previous_state, accumulateBlock_previous_state]
    exact transitionBlock_previous _ _

/-- A default tracker after two consecutive look-away frames: the debounce
counter is at 2 with the transition still unconfirmed. -/
def pendingTracker : AttentionTracker :=
  (((init 5 25 20 5 3 0).update (some 30) (some 0) 1).1.update
    (some 30) (some 0) 2).1

/-- Witness for claim C3: the third consecutive look-away call on
`pendingTracker` changes the state, and indeed its smoothed value differs
from the current state, matches the previous call's smoothed value, and
brings the debounce counter exactly to the threshold. -/
theorem claim_C3_witness :
    smoothedOf pendingTracker (some 30) (some 0) ≠
      pendingTracker.current_state ∧
    ((smoothedOf pendingTracker (some 30) (some 0) =
        pendingTracker.previous_state ∧
      pendingTracker.consecutive_count + 1 =
        pendingTracker.min_consecutive_frames) ∨
      (smoothedOf pendingTracker (some 30) (some 0) ≠
        pendingTracker.previous_state ∧
      pendingTracker.min_consecutive_frames = 1)) :=
  claim_C3_debounce.1 pendingTracker
    (Reachable.update _ (some 30) (some 0) 2
      (Reachable.update _ (some 30) (some 0) 1
        (Reachable.init 5 25 20 5 3 0)))
    (by with_unfolding_all decide) (some 30) (some 0) 3
    (by with_unfolding_all decide)

end AttentionTracker

namespace AttentionTracker

/-- The end-to-end scenario of the spec: a default tracker constructed at
time 0, fed `update(Absent, now = t)` for t = 0..6 seconds. -/
def scenarioInputs : List (Option ℚ × Option ℚ × ℚ) :=
  [(none, none, 0), (none, none, 1), (none, none, 2), (none, none, 3),
   (none, none, 4), (none, none, 5), (none, none, 6)]

/-- Tracker state after the first `n` calls of the end-to-end scenario. -/
def scenarioAt (n : ℕ) : AttentionTracker :=
  runUpdates (init 5 25 20 5 3 0) (scenarioInputs.take n)

/-- Claim C9 counterexample: in the scenario the smoothed value is already
not-looking on call 1 (recorded in `previous_state`; the bootstrap phase
passes the raw classification through before the window fills), so the
debounce confirms the transition at call 3: after the third call the
tracker state is not-looking. This refutes the claim that the smoothed
state first becomes not-looking when the window fills at call 5 and that
the transition confirmation would complete only at call 8 — a call the
seven-call scenario does not even contain; under the claim the state would
still be looking after all seven calls, but it is not-looking from call 3
on. -/
theorem claim_C9_counterexample :
    (scenarioAt 1).previous_state = AttState.not_looking ∧
    (scenarioAt 2).current_state = AttState.looking ∧
    (scenarioAt 3).current_state = AttState.not_looking ∧
    (scenarioAt 7).current_state = AttState.not_looking := by
  with_unfolding_all decide

/-- Claim C9 (amended): in the default seven-call Absent scenario the raw
classification is not-looking on every call, the smoothed value is
not-looking from call 1 on (bootstrap pass-through; `previous_state`
records each call's smoothed value), and the tracker state transitions to
not-looking at call 3, after the 3 consecutive confirming smoothed frames
that started at call 1, and stays there; the timer then accumulates one
second per call, reaching the 5-second threshold at call 7 (t = 6), where
the alert becomes active. -/
theorem claim_C9_scenario :
    classify_attention (init 5 25 20 5 3 0) none none =
      AttState.not_looking ∧
    ((scenarioAt 1).previous_state = AttState.not_looking ∧
      (scenarioAt 2).previous_state = AttState.not_looking ∧
      (scenarioAt 3).previous_state = AttState.not_looking ∧
      (scenarioAt 4).previous_state = AttState.not_looking ∧
      (scenarioAt 5).previous_state = AttState.not_looking ∧
      (scenarioAt 6).previous_state = AttState.not_looking ∧
      (scenarioAt 7).previous_state = AttState.not_looking) ∧
    ((scenarioAt 1).current_state = AttState.looking ∧
      (scenarioAt 2).current_state = AttState.looking ∧
      (scenarioAt 3).current_state = AttState.not_looking ∧
      (scenarioAt 4).current_state = AttState.not_looking ∧
      (scenarioAt 5).current_state = AttState.not_looking ∧
      (scenarioAt 6).current_state = AttState.not_looking ∧
      (scenarioAt 7).current_state = AttState.not_looking) ∧
    ((scenarioAt 3).time_not_looking = 1 ∧
      (scenarioAt 7).time_not_looking = 5) ∧
    ((scenarioAt 6).alert_active = false ∧
      (scenarioAt 7).alert_active = true) := by
  with_unfolding_all decide

end AttentionTracker
